import Mathlib

set_option maxRecDepth 100000

/-!
# Verification of the pokernowbot probabilistic decision core

A shallow embedding, in Lean 4, of the decision core of the `pokernowbot`
repository, together with theorems settling the specification claims.

Conventions of the embedding:
* JavaScript numbers are modelled by `ℚ` (all arithmetic appearing in the
  embedded code is exact decimal/rational arithmetic; no rounding behaviour
  of binary floating point is relevant to the claims settled here).
* Hand-strength percentiles are integers in the source table and are
  modelled by `ℤ`, coerced to `ℚ` where the engines mix them with
  fractional thresholds.
* `Record<string, T>` objects used as lookup tables are modelled by
  association lists `List (String × T)` in source order, with `?? d`
  defaulting modelled by `Option.getD`.
* Calls to the ambient `Math.random()` are modelled by explicit oracle
  arguments: each syntactic call site of `Math.random()` receives its own
  rational oracle value (or stream of values, for the Monte Carlo loops).
* The external `phe` hand evaluator (`rankBoard`) is an external interface
  of the core and is modelled as a function argument `rank`.
* The human-readable `reasoning` strings carried by decisions are
  presentation-only (no code inspects them) and are elided from the
  embedded record types.

Sources embedded: `src/app/helpers/gto-preflop.ts`,
`src/app/helpers/range-tracker.ts`, `src/app/helpers/postflop-engine.ts`,
`src/app/helpers/equity-calculator.ts`, and the `PlayerStats` model class.
-/

namespace PokernowBot

/-! ## PlayerStats (src: app/models/player-stats.ts)

Only the read-side accessors used by the decision core are embedded;
the counters are the stored integer fields of the class. -/

structure PlayerStats where
  total_hands : ℚ
  walks : ℚ
  vpip_hands : ℚ
  pfr_hands : ℚ
  three_bet_hands : ℚ
  three_bet_opportunities : ℚ
  total_bets_raises : ℚ
  total_calls : ℚ
deriving DecidableEq

namespace PlayerStats

def getTotalHands (s : PlayerStats) : ℚ := s.total_hands

def computeVPIPStat (s : PlayerStats) : ℚ :=
  if s.total_hands - s.walks = 0 then 0
  else s.vpip_hands / (s.total_hands - s.walks) * 100

def computePFRStat (s : PlayerStats) : ℚ :=
  if s.total_hands - s.walks = 0 then 0
  else s.pfr_hands / (s.total_hands - s.walks) * 100

def get3BetOpportunities (s : PlayerStats) : ℚ := s.three_bet_opportunities

def compute3BetStat (s : PlayerStats) : ℚ :=
  if s.three_bet_opportunities = 0 then 0
  else s.three_bet_hands / s.three_bet_opportunities * 100

def computeAggressionFactor (s : PlayerStats) : ℚ :=
  if s.total_calls = 0 then (if s.total_bets_raises > 0 then 99 else 0)
  else s.total_bets_raises / s.total_calls

end PlayerStats

namespace GtoPreflop

/-! ## Hand notation and strength (src: app/helpers/gto-preflop.ts) -/

def RANK_ORDER : String := "23456789TJQKA"

/-- JavaScript `String.prototype.indexOf`: index of the first occurrence of
`needle` in `hay`, `-1` if absent (`0` for the empty needle). -/
def strIndexOfAux (needle : List Char) : List Char → ℤ
  | [] => if needle = [] then 0 else -1
  | c :: t =>
    if needle.isPrefixOf (c :: t) then 0
    else
      let r := strIndexOfAux needle t
      if r = -1 then -1 else r + 1

def strIndexOf (hay needle : String) : ℤ :=
  strIndexOfAux needle.toList hay.toList

/-- `normalizeHand`: convert two cards (e.g. "As", "Kh") to canonical
notation (e.g. "AKs" or "AKo"). -/
def normalizeHand (card1 card2 : String) : String :=
  let r1 := card1.dropRight 1
  let r2 := card2.dropRight 1
  let s1 := card1.takeRight 1
  let s2 := card2.takeRight 1
  let r1 := if r1 = "10" then "T" else r1
  let r2 := if r2 = "10" then "T" else r2
  let i1 := strIndexOf RANK_ORDER r1
  let i2 := strIndexOf RANK_ORDER r2
  let high := if i1 ≥ i2 then r1 else r2
  let low := if i1 ≥ i2 then r2 else r1
  if r1 = r2 then high ++ low
  else high ++ low ++ (if s1 = s2 then "s" else "o")

/-- The static `HAND_STRENGTH` record: preflop hand strength percentile
(0 = weakest, 100 = strongest), in source order. -/
def HAND_STRENGTH : List (String × ℤ) := [
  -- pairs
  ("AA", 100), ("KK", 99), ("QQ", 98), ("JJ", 96), ("TT", 93),
  ("99", 88), ("88", 83), ("77", 78), ("66", 72), ("55", 66),
  ("44", 60), ("33", 54), ("22", 48),
  -- ace-suited
  ("AKs", 97), ("AQs", 94), ("AJs", 91), ("ATs", 87), ("A9s", 79),
  ("A8s", 75), ("A7s", 73), ("A6s", 70), ("A5s", 74), ("A4s", 71),
  ("A3s", 68), ("A2s", 65),
  -- king-suited
  ("KQs", 92), ("KJs", 89), ("KTs", 85), ("K9s", 77), ("K8s", 69),
  ("K7s", 64), ("K6s", 62), ("K5s", 58), ("K4s", 55), ("K3s", 52),
  ("K2s", 49),
  -- queen-suited
  ("QJs", 90), ("QTs", 86), ("Q9s", 76), ("Q8s", 67), ("Q7s", 59),
  ("Q6s", 57), ("Q5s", 53), ("Q4s", 50), ("Q3s", 47), ("Q2s", 44),
  -- jack-suited
  ("JTs", 88), ("J9s", 80), ("J8s", 71), ("J7s", 61), ("J6s", 56),
  ("J5s", 51), ("J4s", 46), ("J3s", 42), ("J2s", 38),
  -- ten-suited
  ("T9s", 82), ("T8s", 74), ("T7s", 63), ("T6s", 55), ("T5s", 47),
  ("T4s", 43), ("T3s", 39), ("T2s", 35),
  -- nine-suited
  ("98s", 81), ("97s", 72), ("96s", 60), ("95s", 52), ("94s", 44),
  ("93s", 40), ("92s", 36),
  -- eight-suited
  ("87s", 78), ("86s", 68), ("85s", 57), ("84s", 48), ("83s", 41),
  ("82s", 37),
  -- seven-suited
  ("76s", 75), ("75s", 64), ("74s", 53), ("73s", 45), ("72s", 38),
  -- six-suited
  ("65s", 73), ("64s", 61), ("63s", 50), ("62s", 43),
  -- five-suited
  ("54s", 70), ("53s", 58), ("52s", 49),
  -- four-suited
  ("43s", 56), ("42s", 46),
  -- three-suited
  ("32s", 51),
  -- ace-offsuit
  ("AKo", 95), ("AQo", 90), ("AJo", 86), ("ATo", 82), ("A9o", 73),
  ("A8o", 69), ("A7o", 66), ("A6o", 63), ("A5o", 67), ("A4o", 62),
  ("A3o", 59), ("A2o", 56),
  -- king-offsuit
  ("KQo", 87), ("KJo", 83), ("KTo", 79), ("K9o", 70), ("K8o", 61),
  ("K7o", 55), ("K6o", 52), ("K5o", 48), ("K4o", 44), ("K3o", 40),
  ("K2o", 37),
  -- queen-offsuit
  ("QJo", 84), ("QTo", 80), ("Q9o", 68), ("Q8o", 58), ("Q7o", 50),
  ("Q6o", 46), ("Q5o", 42), ("Q4o", 38), ("Q3o", 34), ("Q2o", 30),
  -- jack-offsuit
  ("JTo", 81), ("J9o", 71), ("J8o", 60), ("J7o", 51), ("J6o", 45),
  ("J5o", 41), ("J4o", 36), ("J3o", 32), ("J2o", 28),
  -- ten-offsuit
  ("T9o", 76), ("T8o", 65), ("T7o", 54), ("T6o", 47), ("T5o", 39),
  ("T4o", 35), ("T3o", 31), ("T2o", 27),
  -- nine-offsuit
  ("98o", 74), ("97o", 63), ("96o", 53), ("95o", 43), ("94o", 36),
  ("93o", 33), ("92o", 29),
  -- eight-offsuit
  ("87o", 70), ("86o", 59), ("85o", 49), ("84o", 40), ("83o", 34),
  ("82o", 31),
  -- seven-offsuit
  ("76o", 67), ("75o", 57), ("74o", 46), ("73o", 38), ("72o", 32),
  -- six-offsuit
  ("65o", 64), ("64o", 52), ("63o", 44), ("62o", 37),
  -- five-offsuit
  ("54o", 61), ("53o", 50), ("52o", 42),
  -- four-offsuit
  ("43o", 48), ("42o", 41),
  -- three-offsuit
  ("32o", 45)]

/-- `getHandStrength`: table lookup with default 30 for unknown classes. -/
def getHandStrength (hand : String) : ℤ :=
  (HAND_STRENGTH.lookup hand).getD 30

end GtoPreflop

namespace RangeTracker

/-! ## The 169 canonical hand classes (src: app/helpers/range-tracker.ts) -/

def RANKS : List String :=
  ["A", "K", "Q", "J", "T", "9", "8", "7", "6", "5", "4", "3", "2"]

/-- `generateAllHands`: nested loop `i ≤ j` over `RANKS`, emitting the pair
for `i = j` and the suited/offsuit classes otherwise. -/
def generateAllHands : List String :=
  (List.range RANKS.length).flatMap (fun i =>
    ((List.range RANKS.length).drop i).flatMap (fun j =>
      let ri := RANKS.getD i ""
      let rj := RANKS.getD j ""
      if i = j then [ri ++ rj]
      else [ri ++ rj ++ "s", ri ++ rj ++ "o"]))

def ALL_HANDS : List String := generateAllHands

/-! ## Weighted ranges and narrowing (src: app/helpers/range-tracker.ts) -/

structure WeightedHand where
  hand : String
  weight : ℚ
deriving DecidableEq

def POSITION_OPEN_CUTOFFS : List (String × ℚ) := [
  ("UTG", 82), ("UTG+1", 80), ("MP", 78), ("LJ", 75), ("HJ", 73),
  ("CO", 68), ("BU", 52), ("SB", 55), ("BB", 40)]

def THREE_BET_CUTOFFS : List (String × ℚ) := [
  ("UTG", 96), ("UTG+1", 95), ("MP", 94), ("LJ", 93), ("HJ", 92),
  ("CO", 90), ("BU", 88), ("SB", 85), ("BB", 85)]

def FLAT_CALL_CUTOFFS : List (String × ℚ) := [
  ("IP", 65), ("OOP", 72), ("BB", 55)]

structure RangeAdjustment where
  openWidenPercent : ℚ
  threeBetWidenPercent : ℚ
  callWidenPercent : ℚ
deriving DecidableEq

def getPlayerTypeAdjustment (stats : Option PokernowBot.PlayerStats) : RangeAdjustment :=
  match stats with
  | none => ⟨0, 0, 0⟩
  | some s =>
    if s.getTotalHands < 8 then ⟨0, 0, 0⟩
    else
      let vpip := s.computeVPIPStat
      let pfr := s.computePFRStat
      if vpip < 18 then ⟨8, 3, 5⟩
      else if vpip > 35 ∧ pfr < 12 then ⟨-5, 5, -20⟩
      else if vpip > 30 ∧ pfr > 22 then ⟨-15, -10, -8⟩
      else if vpip > 30 then ⟨-10, 3, -15⟩
      else ⟨0, 0, 0⟩

/-- `createStartingRange`: weight 1.0 for classes at or above the
position-and-player-type cutoff, 0.0 below it. -/
def createStartingRange (position : String) (stats : Option PokernowBot.PlayerStats) :
    List WeightedHand :=
  let adj := getPlayerTypeAdjustment stats
  let cutoff := ((POSITION_OPEN_CUTOFFS.lookup position).getD 70) + adj.openWidenPercent
  ALL_HANDS.map (fun hand =>
    let strength := GtoPreflop.getHandStrength hand
    ⟨hand, if (strength : ℚ) ≥ cutoff then 1.0 else 0.0⟩)

/-- `createFullRange`: every class at weight 1.0. -/
def createFullRange : List WeightedHand :=
  ALL_HANDS.map (fun hand => ⟨hand, 1.0⟩)

def narrowByOpenRaise (range : List WeightedHand) (position : String)
    (stats : Option PokernowBot.PlayerStats) : List WeightedHand :=
  let adj := getPlayerTypeAdjustment stats
  let cutoff := ((POSITION_OPEN_CUTOFFS.lookup position).getD 70) + adj.openWidenPercent
  range.map (fun wh =>
    let strength := GtoPreflop.getHandStrength wh.hand
    if (strength : ℚ) < cutoff then { wh with weight := wh.weight * 0.05 }
    else wh)

/-- The 3-bet bluff-candidate set used by `narrowBy3Bet`. -/
def bluffHands : List String :=
  ["A5s", "A4s", "A3s", "A2s", "76s", "65s", "54s", "K5s", "K4s", "J9s", "T9s"]

def narrowBy3Bet (range : List WeightedHand) (position : String)
    (stats : Option PokernowBot.PlayerStats) : List WeightedHand :=
  let adj := getPlayerTypeAdjustment stats
  let cutoff := ((THREE_BET_CUTOFFS.lookup position).getD 90) + adj.threeBetWidenPercent
  range.map (fun wh =>
    let strength := GtoPreflop.getHandStrength wh.hand
    if (strength : ℚ) ≥ cutoff then wh
    else if bluffHands.contains wh.hand then { wh with weight := wh.weight * 0.35 }
    else { wh with weight := wh.weight * 0.02 })

def narrowByPreflopCall (range : List WeightedHand) (position : String)
    (isInPosition : Bool) (stats : Option PokernowBot.PlayerStats) : List WeightedHand :=
  let adj := getPlayerTypeAdjustment stats
  let threeBetCutoff := ((THREE_BET_CUTOFFS.lookup position).getD 90) + adj.threeBetWidenPercent
  let callPosition := if position = "BB" then "BB" else if isInPosition then "IP" else "OOP"
  let callCutoff := ((FLAT_CALL_CUTOFFS.lookup callPosition).getD 65) + adj.callWidenPercent
  range.map (fun wh =>
    let strength := GtoPreflop.getHandStrength wh.hand
    if (strength : ℚ) ≥ threeBetCutoff then { wh with weight := wh.weight * 0.15 }
    else if (strength : ℚ) < callCutoff then { wh with weight := wh.weight * 0.05 }
    else wh)

def narrowByPostflopBet (range : List WeightedHand) (betSizePotFraction : ℚ) :
    List WeightedHand :=
  let polarizationFactor := min (betSizePotFraction / 0.75) 1.5
  range.map (fun wh =>
    let strength := GtoPreflop.getHandStrength wh.hand
    if strength ≥ 85 then { wh with weight := wh.weight * (0.9 + polarizationFactor * 0.1) }
    else if strength ≥ 70 then { wh with weight := wh.weight * (1.0 - polarizationFactor * 0.2) }
    else if strength ≥ 55 then { wh with weight := wh.weight * (0.6 - polarizationFactor * 0.15) }
    else { wh with weight := wh.weight * (0.2 + polarizationFactor * 0.1) })

def narrowByPostflopCheck (range : List WeightedHand) : List WeightedHand :=
  range.map (fun wh =>
    let strength := GtoPreflop.getHandStrength wh.hand
    if strength ≥ 90 then { wh with weight := wh.weight * 0.25 }
    else if strength ≥ 75 then { wh with weight := wh.weight * 0.5 }
    else { wh with weight := wh.weight * 0.9 })

def narrowByPostflopCall (range : List WeightedHand) : List WeightedHand :=
  range.map (fun wh =>
    let strength := GtoPreflop.getHandStrength wh.hand
    if strength ≥ 95 then { wh with weight := wh.weight * 0.3 }
    else if strength ≥ 70 then { wh with weight := wh.weight * 0.85 }
    else if strength ≥ 50 then wh
    else if strength ≥ 35 then { wh with weight := wh.weight * 0.6 }
    else { wh with weight := wh.weight * 0.1 })

/-- The `reduce` accumulating the range's total weight in `normalizeRange`. -/
def totalWeight (range : List WeightedHand) : ℚ :=
  range.foldl (fun sum wh => sum + wh.weight) 0

/-- `normalizeRange`: rescale the weights to sum to 1.0; identity when the
total weight is zero. -/
def normalizeRange (range : List WeightedHand) : List WeightedHand :=
  if totalWeight range = 0 then range
  else range.map (fun wh => { wh with weight := wh.weight / totalWeight range })

end RangeTracker

namespace GtoPreflop

/-! ## GTO tables and preflop decision engine (src: app/helpers/gto-preflop.ts) -/

def RFI_THRESHOLDS : List (String × ℚ) := [
  ("UTG", 82), ("UTG+1", 80), ("MP", 78), ("LJ", 75),
  ("HJ", 73), ("CO", 68), ("BU", 52), ("SB", 55)]

def THREE_BET_VALUE_THRESHOLDS : List (String × ℚ) := [
  ("vs_UTG", 96), ("vs_MP", 94), ("vs_CO", 92), ("vs_BU", 88), ("vs_SB", 85)]

def THREE_BET_BLUFFS : List String :=
  ["A5s", "A4s", "A3s", "A2s", "76s", "65s", "54s", "K5s", "K4s", "J9s", "T9s"]

def CALL_VS_OPEN_THRESHOLDS : List (String × ℚ) := [
  ("IP", 65), ("OOP", 72), ("BB", 55)]

def FACING_3BET_4BET_THRESHOLD : ℚ := 96

def FACING_3BET_CALL_IP : ℚ := 85

def FACING_3BET_CALL_OOP : ℚ := 90

def SHORT_STACK_SHOVE_THRESHOLD : ℚ := 65

def NASH_SHOVE_RANGES : List (String × List (String × ℚ)) := [
  ("10", [("UTG", 78), ("UTG+1", 76), ("MP", 74), ("LJ", 72), ("HJ", 70),
          ("CO", 62), ("BU", 50), ("SB", 48), ("BB", 55)]),
  ("15", [("UTG", 82), ("UTG+1", 80), ("MP", 78), ("LJ", 76), ("HJ", 74),
          ("CO", 68), ("BU", 58), ("SB", 55), ("BB", 62)]),
  ("20", [("UTG", 85), ("UTG+1", 83), ("MP", 82), ("LJ", 80), ("HJ", 78),
          ("CO", 72), ("BU", 65), ("SB", 62), ("BB", 68)])]

def NASH_CALL_VS_SHOVE : List (String × List (String × ℚ)) := [
  ("10", [("UTG", 88), ("UTG+1", 87), ("MP", 86), ("LJ", 85), ("HJ", 84),
          ("CO", 80), ("BU", 75), ("SB", 72), ("BB", 68)]),
  ("15", [("UTG", 90), ("UTG+1", 89), ("MP", 88), ("LJ", 87), ("HJ", 86),
          ("CO", 83), ("BU", 78), ("SB", 75), ("BB", 72)]),
  ("20", [("UTG", 92), ("UTG+1", 91), ("MP", 90), ("LJ", 89), ("HJ", 88),
          ("CO", 85), ("BU", 82), ("SB", 80), ("BB", 76)])]

def BB_DEFENSE_THRESHOLDS : List (String × ℚ) := [
  ("vs_UTG", 70), ("vs_UTG+1", 68), ("vs_MP", 65), ("vs_LJ", 62),
  ("vs_HJ", 60), ("vs_CO", 55), ("vs_BU", 48), ("vs_SB", 45)]

def BB_CHECK_RAISE_THRESHOLD : ℚ := 88

structure PreflopContext where
  isRFI : Bool
  facingOpen : Bool
  facing3Bet : Bool
  facing4Bet : Bool
  facingLimp : Bool
  numRaises : ℕ
  openRaiserPosition : String
  lastRaiseSize : ℚ
  potSize : ℚ
  isInPosition : Bool
  playersInPot : ℕ
deriving DecidableEq

/-- `getMultiwayAdjustment`: +5 percentile per player in the pot beyond two. -/
def getMultiwayAdjustment (playersInPot : ℕ) : ℚ :=
  if playersInPot ≤ 2 then 0 else ((playersInPot : ℚ) - 2) * 5

structure PlayerAction where
  playerId : String
  action : String
  betAmount : ℚ
deriving DecidableEq

/-- The mutable locals of the scanning loop in `analyzePreflopContext`. -/
structure ScanState where
  numRaises : ℕ
  openRaiserPosition : String
  lastRaiseSize : ℚ
  potSize : ℚ
  heroActed : Bool
  facingLimp : Bool
  playersInPot : ℕ
deriving DecidableEq

def posOrder : List String := ["SB", "BB", "UTG", "UTG+1", "MP", "LJ", "HJ", "CO", "BU"]

/-- JavaScript `Array.prototype.indexOf`: first index of `x`, `-1` if absent. -/
def arrayIndexOf (l : List String) (x : String) : ℤ :=
  match l.findIdx? (fun y => y == x) with
  | some i => (i : ℤ)
  | none => -1

def analyzePreflopContextStep (heroId : String) (positionMap : List (String × String))
    (s : ScanState) (a : PlayerAction) : ScanState :=
  if a.playerId = heroId then { s with heroActed := true }
  else if a.action = "raises" ∨ a.action = "bets" then
    let numRaises := s.numRaises + 1
    { s with
      numRaises := numRaises
      openRaiserPosition :=
        if numRaises = 1 then (positionMap.lookup a.playerId).getD "" else s.openRaiserPosition
      lastRaiseSize := a.betAmount
      potSize := s.potSize + a.betAmount }
  else if a.action = "calls" then
    { s with
      potSize := s.potSize + a.betAmount
      playersInPot := s.playersInPot + 1
      facingLimp := if s.numRaises = 0 then true else s.facingLimp }
  else s  -- "posts": blinds already counted

def analyzePreflopContext (playerActions : List PlayerAction) (heroId : String)
    (heroPosition : String) (positionMap : List (String × String)) : PreflopContext :=
  let s := playerActions.foldl (analyzePreflopContextStep heroId positionMap)
    ⟨0, "", 0, 1.5, false, false, 2⟩
  let heroIdx := arrayIndexOf posOrder heroPosition
  let aggressorIdx := arrayIndexOf posOrder s.openRaiserPosition
  let isIP := heroIdx > aggressorIdx
  { isRFI := s.numRaises == 0 && !s.facingLimp
    facingOpen := s.numRaises == 1 && !s.heroActed
    facing3Bet := s.numRaises == 2 && s.heroActed
    facing4Bet := decide (3 ≤ s.numRaises) && s.heroActed
    facingLimp := s.facingLimp && s.numRaises == 0
    numRaises := s.numRaises
    openRaiserPosition := s.openRaiserPosition
    lastRaiseSize := s.lastRaiseSize
    potSize := s.potSize
    isInPosition := decide isIP
    playersInPot := s.playersInPot }

structure ExploitAdjustment where
  rfiAdjust : ℚ
  threeBetAdjust : ℚ
  callAdjust : ℚ
  bluffMore : Bool
  valueWider : Bool
deriving DecidableEq

/-- `getExploitAdjustment`: exploitation deltas from overall opponent stats.
The sequential field mutations of the source are modelled by successive
rebindings of `adj`. -/
def getExploitAdjustment (stats : Option PokernowBot.PlayerStats) : ExploitAdjustment :=
  let defaults : ExploitAdjustment := ⟨0, 0, 0, false, false⟩
  match stats with
  | none => defaults
  | some s =>
    if s.getTotalHands < 8 then defaults
    else
      let vpip := s.computeVPIPStat
      let pfr := s.computePFRStat
      let af := s.computeAggressionFactor
      let threeBet := s.compute3BetStat
      let adj :=
        if vpip < 18 then
          { defaults with rfiAdjust := -8, bluffMore := true, threeBetAdjust := 5 }
        else if vpip > 35 ∧ pfr < 12 then
          { defaults with valueWider := true, bluffMore := false,
                          callAdjust := -5, threeBetAdjust := -5 }
        else if vpip > 30 ∧ pfr > 22 then
          { defaults with threeBetAdjust := -8, callAdjust := -5 }
        else if vpip ≥ 18 ∧ vpip ≤ 25 ∧ pfr ≥ 15 ∧ pfr ≤ 22 then
          defaults
        else if vpip > 30 ∧ af < 1.5 then
          { defaults with valueWider := true, bluffMore := false }
        else defaults
      let adj := if threeBet > 10 ∧ s.get3BetOpportunities ≥ 5 then
        { adj with threeBetAdjust := 5 } else adj
      let adj := if af > 3 then { adj with callAdjust := -8 } else adj
      adj

/-- Decision record (`reasoning` text elided, see the file header). -/
structure GTODecision where
  action : String
  sizingBBs : ℚ
  confidence : ℚ
deriving DecidableEq

def getShortStackAction (hand : String) (strength : ℚ) (position : String)
    (stackBBs : ℚ) (context : PreflopContext) : GTODecision :=
  let stackBucket := if stackBBs ≤ 12 then "10" else if stackBBs ≤ 17 then "15" else "20"
  if context.isRFI then
    let threshold := ((NASH_SHOVE_RANGES.lookup stackBucket).bind
      (fun m => m.lookup position)).getD SHORT_STACK_SHOVE_THRESHOLD
    if stackBucket = "20" ∧ strength ≥ threshold + 10 then ⟨"raise", 2.5, 0.9⟩
    else if strength ≥ threshold then ⟨"all-in", stackBBs, 0.95⟩
    else ⟨"fold", 0, 0.9⟩
  else if context.facingOpen then
    let threshold0 := ((NASH_CALL_VS_SHOVE.lookup stackBucket).bind
      (fun m => m.lookup position)).getD 75
    let threshold1 := if context.isInPosition then threshold0 - 3 else threshold0
    let threshold := threshold1 + getMultiwayAdjustment context.playersInPot
    if strength ≥ threshold then ⟨"all-in", stackBBs, 0.9⟩
    else ⟨"fold", 0, 0.85⟩
  else ⟨"fold", 0, 0.7⟩

def getRFIAction (hand : String) (strength : ℚ) (position : String)
    (stackBBs : ℚ) (context : PreflopContext) (exploit : ExploitAdjustment) : GTODecision :=
  let threshold0 := (RFI_THRESHOLDS.lookup position).getD 75
  let threshold1 := threshold0 + exploit.rfiAdjust
  let threshold2 := threshold1 + getMultiwayAdjustment context.playersInPot
  let threshold :=
    if context.facingLimp = true ∧ context.playersInPot ≤ 3 then threshold2 - 5 else threshold2
  if strength ≥ threshold then
    let sizing0 : ℚ := 2.5
    let sizing1 :=
      if context.facingLimp then 3.5 + ((context.playersInPot : ℚ) - 2) * 1.0 else sizing0
    let sizing := if position = "SB" then 3.0 else sizing1
    ⟨"raise", sizing, 0.9⟩
  else if position = "SB" ∧ strength ≥ 45 ∧ hand.endsWith "s" = true then
    ⟨"call", 0.5, 0.6⟩
  else ⟨"fold", 0, 0.85⟩

def getBBDefenseAction (hand : String) (strength : ℚ) (context : PreflopContext)
    (exploit : ExploitAdjustment) (randBBBluff : ℚ) : GTODecision :=
  let defenseThreshold :=
    ((BB_DEFENSE_THRESHOLDS.lookup ("vs_" ++ context.openRaiserPosition)).getD 60)
      + exploit.callAdjust
  let checkRaiseThreshold := BB_CHECK_RAISE_THRESHOLD + exploit.threeBetAdjust
  if strength ≥ checkRaiseThreshold then
    ⟨"raise", max (context.lastRaiseSize * 3.5) 7, 0.85⟩
  else if THREE_BET_BLUFFS.contains hand = true ∧ context.playersInPot ≤ 3
      ∧ randBBBluff < 0.35 then
    ⟨"raise", max (context.lastRaiseSize * 3.5) 7, 0.7⟩
  else if strength ≥ defenseThreshold then
    ⟨"call", context.lastRaiseSize - 1, 0.8⟩
  else ⟨"fold", 0, 0.8⟩

def getFacingOpenAction (hand : String) (strength : ℚ) (position : String)
    (stackBBs : ℚ) (context : PreflopContext) (exploit : ExploitAdjustment)
    (randOpenBluff randBBBluff : ℚ) : GTODecision :=
  let vsKey := "vs_" ++ context.openRaiserPosition
  let mwAdj := getMultiwayAdjustment context.playersInPot
  let threeBetThreshold :=
    ((THREE_BET_VALUE_THRESHOLDS.lookup vsKey).getD 92) + exploit.threeBetAdjust + mwAdj
  if strength ≥ threeBetThreshold then
    let sizing0 :=
      if context.isInPosition then context.lastRaiseSize * 3 else context.lastRaiseSize * 3.5
    let sizing :=
      if 2 < context.playersInPot then sizing0 + ((context.playersInPot : ℚ) - 2) * 1.5
      else sizing0
    ⟨"raise", max sizing 7, 0.9⟩
  else if THREE_BET_BLUFFS.contains hand = true ∧ exploit.valueWider = false
      ∧ context.playersInPot ≤ 3 ∧ randOpenBluff < 0.4 then
    let sizing :=
      if context.isInPosition then context.lastRaiseSize * 3 else context.lastRaiseSize * 3.5
    ⟨"raise", max sizing 7, 0.75⟩
  else if position = "BB" then
    getBBDefenseAction hand strength context exploit randBBBluff
  else
    let callThreshold0 :=
      if context.isInPosition then (CALL_VS_OPEN_THRESHOLDS.lookup "IP").getD 0
      else (CALL_VS_OPEN_THRESHOLDS.lookup "OOP").getD 0
    let callThreshold := callThreshold0 + exploit.callAdjust + mwAdj
    if strength ≥ callThreshold then ⟨"call", context.lastRaiseSize, 0.85⟩
    else ⟨"fold", 0, 0.85⟩

def getFacing3BetAction (hand : String) (strength : ℚ) (position : String)
    (stackBBs : ℚ) (context : PreflopContext) (exploit : ExploitAdjustment)
    (rand4BetBluff : ℚ) : GTODecision :=
  if strength ≥ FACING_3BET_4BET_THRESHOLD then
    ⟨"raise", min (context.lastRaiseSize * 2.5) stackBBs, 0.95⟩
  else if (hand = "A5s" ∨ hand = "A4s") ∧ rand4BetBluff < 0.3 then
    ⟨"raise", min (context.lastRaiseSize * 2.5) stackBBs, 0.65⟩
  else
    let callThreshold := if context.isInPosition then FACING_3BET_CALL_IP else FACING_3BET_CALL_OOP
    if strength ≥ callThreshold then ⟨"call", context.lastRaiseSize, 0.85⟩
    else ⟨"fold", 0, 0.9⟩

def getFacing4BetAction (hand : String) (strength : ℚ) (stackBBs : ℚ) : GTODecision :=
  if strength ≥ 99 then ⟨"all-in", stackBBs, 0.98⟩
  else if strength ≥ 96 then ⟨"call", 0, 0.8⟩
  else ⟨"fold", 0, 0.92⟩

/-- `getGTOPreflopAction`: the main preflop dispatcher.  The three trailing
rational arguments are the oracle values for the three `Math.random()` call
sites reachable from here (3-bet bluff vs an open, BB 3-bet bluff, and
4-bet bluff). -/
def getGTOPreflopAction (card1 card2 heroPosition : String) (stackSizeBBs : ℚ)
    (context : PreflopContext) (opponentStats : Option PokernowBot.PlayerStats)
    (randOpenBluff randBBBluff rand4BetBluff : ℚ) : GTODecision :=
  let hand := normalizeHand card1 card2
  let strength : ℚ := ((getHandStrength hand : ℤ) : ℚ)
  let exploit := getExploitAdjustment opponentStats
  if stackSizeBBs < 25 then
    getShortStackAction hand strength heroPosition stackSizeBBs context
  else if context.isRFI || context.facingLimp then
    getRFIAction hand strength heroPosition stackSizeBBs context exploit
  else if context.facingOpen then
    getFacingOpenAction hand strength heroPosition stackSizeBBs context exploit
      randOpenBluff randBBBluff
  else if context.facing3Bet then
    getFacing3BetAction hand strength heroPosition stackSizeBBs context exploit rand4BetBluff
  else if context.facing4Bet then
    getFacing4BetAction hand strength stackSizeBBs
  else ⟨"", 0, 0⟩  -- unhandled context: defer to the fallback collaborator

end GtoPreflop

namespace PostflopEngine

/-! ## Postflop EV engine (src: app/helpers/postflop-engine.ts) -/

/-- Decision record (`reasoning` text elided). -/
structure PostflopDecision where
  action : String
  sizingBBs : ℚ
  evBBs : ℚ
  confidence : ℚ
deriving DecidableEq

structure ActionEV where
  action : String
  sizingBBs : ℚ
  ev : ℚ
deriving DecidableEq

/-- The `baseFoldFreq` local of `estimateFoldEquity`: archetype base fold
frequency from opponent stats (0.45 default). -/
def baseFoldFreq (stats : Option PokernowBot.PlayerStats) : ℚ :=
  match stats with
  | none => 0.45
  | some s =>
    if s.getTotalHands ≥ 8 then
      let vpip := s.computeVPIPStat
      let pfr := s.computePFRStat
      let af := s.computeAggressionFactor
      if vpip < 18 then 0.65
      else if vpip > 35 ∧ pfr < 12 then 0.25
      else if vpip ≥ 18 ∧ vpip ≤ 25 ∧ pfr ≥ 15 ∧ pfr ≤ 22 then 0.50
      else if vpip > 30 ∧ pfr > 22 then 0.40
      else if vpip > 30 ∧ af < 1.5 then 0.30
      else 0.45
    else 0.45

/-- `estimateFoldEquity`: archetype base rate scaled by bet size and street,
clamped to [0.05, 0.85]. -/
def estimateFoldEquity (stats : Option PokernowBot.PlayerStats)
    (betSizePotFraction : ℚ) (street : String) : ℚ :=
  let sizingMultiplier := 0.8 + betSizePotFraction * 0.4
  let streetMultiplier : ℚ := if street = "river" then 1.1 else if street = "turn" then 1.05 else 1.0
  min (max (baseFoldFreq stats * sizingMultiplier * streetMultiplier) 0.05) 0.85

def calculateBetEV (potBBs betBBs equity foldEquity : ℚ) : ℚ :=
  let foldEV := foldEquity * potBBs
  let callPot := potBBs + betBBs * 2
  let callEV := (1 - foldEquity) * (equity * callPot - (1 - equity) * betBBs)
  foldEV + callEV

def calculateCallEV (potBBs callBBs equity : ℚ) : ℚ :=
  let totalPot := potBBs + callBBs
  equity * totalPot - (1 - equity) * callBBs

def calculateCheckEV (potBBs equity : ℚ) : ℚ :=
  equity * potBBs

def calculateRaiseEV (potBBs raiseBBs callBBs equity foldEquity : ℚ) : ℚ :=
  let foldEV := foldEquity * potBBs
  let callPot := potBBs + raiseBBs + raiseBBs
  let callEV := (1 - foldEquity) * (equity * callPot - (1 - equity) * raiseBBs)
  foldEV + callEV

def BET_SIZE_FRACTIONS : List ℚ := [0.33, 0.50, 0.75, 1.0, 1.5]

/-- Stable insertion step for the descending-EV sort (`sort` with comparator
`(a, b) => b.ev - a.ev`; JavaScript `Array.prototype.sort` is stable). -/
def insertByEV (a : ActionEV) : List ActionEV → List ActionEV
  | [] => [a]
  | b :: t => if a.ev ≥ b.ev then a :: b :: t else b :: insertByEV a t

def sortByEVDesc (l : List ActionEV) : List ActionEV :=
  l.foldr insertByEV []

/-- `getPostflopEVDecision`: enumerate feasible actions, score them by EV,
pick the highest with confidence from the gap to the runner-up. -/
def getPostflopEVDecision (equity potBBs stackBBs : ℚ) (street : String)
    (facingBet : Bool) (betToCallBBs : ℚ)
    (opponentStats : Option PokernowBot.PlayerStats)
    (canCheck : Bool := true) (canBet : Bool := true) : PostflopDecision :=
  let equityFrac := equity / 100
  let foldEVs : List ActionEV := if facingBet then [⟨"fold", 0, 0⟩] else []
  let checkEVs : List ActionEV :=
    if canCheck && !facingBet then [⟨"check", 0, calculateCheckEV potBBs equityFrac⟩] else []
  let callEVs : List ActionEV :=
    if facingBet = true ∧ betToCallBBs > 0 then
      [⟨"call", betToCallBBs, calculateCallEV potBBs betToCallBBs equityFrac⟩]
    else []
  let betEVs : List ActionEV :=
    BET_SIZE_FRACTIONS.foldl (fun acc fraction =>
      let betBBs := min (potBBs * fraction) stackBBs
      if betBBs ≤ 0 then acc
      else if betBBs > stackBBs then acc  -- unreachable guard kept from source
      else
        let foldEq := estimateFoldEquity opponentStats fraction street
        if facingBet then
          let raiseSize := betToCallBBs + betBBs
          if raiseSize > stackBBs then acc
          else acc ++ [⟨"raise", raiseSize,
            calculateRaiseEV potBBs raiseSize betToCallBBs equityFrac foldEq⟩]
        else acc ++ [⟨"bet", betBBs, calculateBetEV potBBs betBBs equityFrac foldEq⟩]) []
  let allInEVs : List ActionEV :=
    if stackBBs ≤ potBBs * 2 then
      let foldEq := estimateFoldEquity opponentStats (stackBBs / max potBBs 0.1) street
      if facingBet then
        [⟨"all-in", stackBBs, calculateRaiseEV potBBs stackBBs betToCallBBs equityFrac foldEq⟩]
      else
        [⟨"all-in", stackBBs, calculateBetEV potBBs stackBBs equityFrac foldEq⟩]
    else []
  let allEVs := foldEVs ++ checkEVs ++ callEVs ++ (if canBet then betEVs ++ allInEVs else [])
  if allEVs.isEmpty then ⟨"check", 0, 0, 0⟩
  else
    let sorted := sortByEVDesc allEVs
    let best := sorted.headD ⟨"check", 0, 0⟩
    let evGap : ℚ := match sorted.get? 1 with
      | some secondBest => best.ev - secondBest.ev
      | none => 5
    let confidence := min (max (evGap / 3) 0.1) 0.95
    ⟨best.action, best.sizingBBs, best.ev, confidence⟩

end PostflopEngine

namespace EquityCalculator

/-! ## Monte Carlo equity calculator (src: app/helpers/equity-calculator.ts)

The external `phe` evaluator is the argument `rank` (the body of
`evaluateHand`); the ambient `Math.random()` stream of a simulation run is
the argument `randoms`, indexed by simulation number and by the shuffle
loop counter within that simulation. -/

def RANKS : List String :=
  ["2", "3", "4", "5", "6", "7", "8", "9", "T", "J", "Q", "K", "A"]

def SUITS : List String := ["s", "h", "d", "c"]

/-- `buildDeck`: the 52-card deck in rank-major order. -/
def buildDeck : List String :=
  RANKS.flatMap (fun r => SUITS.map (fun s => r ++ s))

/-- `normalizeCard`: "10h" -> "Th", "As" -> "As".  (`card.startsWith "10"`
is expressed as a character-list prefix test, which is equivalent.) -/
def normalizeCard (card : String) : String :=
  if ("10".toList).isPrefixOf card.toList then "T" ++ card.drop 2 else card

/-- Swap two positions of a list (the destructuring swap of Fisher–Yates).
Out-of-range indices (only reachable from an out-of-contract oracle value)
leave the list unchanged. -/
def swapIdx (l : List String) (i j : ℕ) : List String :=
  match l.get? i, l.get? j with
  | some a, some b => (l.set i b).set j a
  | _, _ => l

/-- The Fisher–Yates loop of `shuffle`: index `i` walks from
`arr.length - 1` down to `1`; the oracle value for iteration `i` is
`rand i ∈ [0,1)` and `j = ⌊rand i · (i+1)⌋`. -/
def shuffleGo (rand : ℕ → ℚ) : ℕ → List String → List String
  | 0, arr => arr
  | i + 1, arr =>
    let j := (Int.floor (rand (i + 1) * ((i + 1 : ℕ) + 1 : ℚ))).toNat
    shuffleGo rand i (swapIdx arr (i + 1) j)

def shuffle (rand : ℕ → ℚ) (arr : List String) : List String :=
  shuffleGo rand (arr.length - 1) arr

/-- The inner opponent loop of `calculateEquity`: deals two cards per
opponent starting at deck offset `idx`, comparing evaluator ranks, with
the `break` on a strictly better opponent hand. -/
def oppLoop (rank : List String → ℤ) (deck fullBoard : List String) (heroRank : ℤ) :
    ℕ → ℕ → Bool → Bool → Bool × Bool
  | 0, _, heroBeat, heroTied => (heroBeat, heroTied)
  | k + 1, idx, heroBeat, heroTied =>
    let oppCards := [deck.getD idx "", deck.getD (idx + 1) ""]
    let oppRank := rank (oppCards ++ fullBoard)
    if oppRank < heroRank then (false, false)
    else if oppRank = heroRank then
      oppLoop rank deck fullBoard heroRank k (idx + 2) false heroTied
    else
      oppLoop rank deck fullBoard heroRank k (idx + 2) heroBeat false

/-- The simulation loop of `calculateEquity`: `k` simulations remain, `s`
is the current simulation index, and `deck` is the (persistently
re-shuffled) residual deck.  Returns the accumulated (wins, ties). -/
def simLoop (rank : List String → ℤ) (randoms : ℕ → ℕ → ℚ)
    (heroNorm boardNorm : List String) (bNeeded nOpp : ℕ) :
    ℕ → ℕ → List String → ℕ × ℕ
  | 0, _, _ => (0, 0)
  | k + 1, s, deck =>
    let deckS := shuffle (randoms s) deck
    let fullBoard := boardNorm ++ deckS.take bNeeded
    let heroRank := rank (heroNorm ++ fullBoard)
    let bt := oppLoop rank deckS fullBoard heroRank nOpp bNeeded true true
    let rest := simLoop rank randoms heroNorm boardNorm bNeeded nOpp k (s + 1) deckS
    if bt.1 then (rest.1 + 1, rest.2)
    else if bt.2 then (rest.1, rest.2 + 1)
    else rest

/-- The residual deck: the 52-card deck minus hero and board cards. -/
def remainingDeckOf (heroCards boardCards : List String) : List String :=
  let usedCards := heroCards.map normalizeCard ++ boardCards.map normalizeCard
  buildDeck.filter (fun c => !usedCards.contains c)

/-- `calculateEquity`: Monte Carlo equity versus `numOpponents` uniformly
random opponents; neutral 50 when the residual deck is too small. -/
def calculateEquity (rank : List String → ℤ) (randoms : ℕ → ℕ → ℚ)
    (heroCards boardCards : List String) (numOpponents : ℕ)
    (numSimulations : ℕ) : ℚ :=
  let heroNorm := heroCards.map normalizeCard
  let boardNorm := boardCards.map normalizeCard
  let remainingDeck := remainingDeckOf heroCards boardCards
  let cardsNeededForBoard : ℤ := 5 - boardNorm.length
  let totalCardsNeeded : ℤ := cardsNeededForBoard + numOpponents * 2
  if (remainingDeck.length : ℤ) < totalCardsNeeded then 50
  else
    let wt := simLoop rank randoms heroNorm boardNorm cardsNeededForBoard.toNat
      numOpponents numSimulations 0 remainingDeck
    ((wt.1 + (wt.2 : ℚ) * 0.5) / (numSimulations : ℚ)) * 100

end EquityCalculator

/-! ## Helper lemmas -/

theorem lookup_mem {α β : Type} [BEq α] [LawfulBEq α] {l : List (α × β)} {k : α} {v : β}
    (h : l.lookup k = some v) : (k, v) ∈ l := by
  induction l with
  | nil => simp [List.lookup] at h
  | cons p t ih =>
    rcases p with ⟨a, b⟩
    rw [List.lookup] at h
    cases hk : (k == a) with
    | true =>
      rw [hk] at h
      have hka : k = a := eq_of_beq hk
      have hbv : b = v := by simpa using h
      subst hka
      subst hbv
      exact List.mem_cons_self _ _
    | false =>
      rw [hk] at h
      exact List.mem_cons_of_mem _ (ih h)

namespace RangeTracker

theorem foldl_add_init (r : List WeightedHand) :
    ∀ a : ℚ, r.foldl (fun s wh => s + wh.weight) a = a + r.foldl (fun s wh => s + wh.weight) 0 := by
  induction r with
  | nil => intro a; simp
  | cons x t ih =>
    intro a
    simp only [List.foldl_cons]
    rw [ih (a + x.weight), ih (0 + x.weight)]
    ring

theorem totalWeight_cons (x : WeightedHand) (l : List WeightedHand) :
    totalWeight (x :: l) = x.weight + totalWeight l := by
  simp only [totalWeight, List.foldl_cons]
  rw [foldl_add_init]
  ring

theorem totalWeight_map_scale (r : List WeightedHand) (t : ℚ) :
    totalWeight (r.map fun wh => { wh with weight := wh.weight / t }) = totalWeight r / t := by
  induction r with
  | nil => simp [totalWeight]
  | cons x l ih =>
    simp only [List.map_cons, totalWeight_cons, ih]
    ring

theorem normalizeRange_of_ne (l : List WeightedHand) (h : totalWeight l ≠ 0) :
    normalizeRange l = l.map fun wh => { wh with weight := wh.weight / totalWeight l } := by
  unfold normalizeRange
  rw [if_neg h]

end RangeTracker

/-! ## Claim theorems -/

/-- C3: the hand-strength lookup is total: every one of the 169 canonical
hand classes gets an integer strength in [0,100]; any string not among the
169 classes gets the floor value 30; and the representative ordering
strength("AA") > strength("AKo") > strength("72o") holds. -/
theorem getHandStrength_total :
    (∀ h ∈ RangeTracker.ALL_HANDS,
      0 ≤ GtoPreflop.getHandStrength h ∧ GtoPreflop.getHandStrength h ≤ 100)
    ∧ (∀ s : String, s ∉ RangeTracker.ALL_HANDS → GtoPreflop.getHandStrength s = 30)
    ∧ GtoPreflop.getHandStrength "AA" > GtoPreflop.getHandStrength "AKo"
    ∧ GtoPreflop.getHandStrength "AKo" > GtoPreflop.getHandStrength "72o" := by
  have hvals : ∀ p ∈ GtoPreflop.HAND_STRENGTH, 0 ≤ p.2 ∧ p.2 ≤ 100 := by decide
  have hkeys : ∀ p ∈ GtoPreflop.HAND_STRENGTH, p.1 ∈ RangeTracker.ALL_HANDS := by decide
  refine ⟨?_, ?_, by decide, by decide⟩
  · intro h _
    unfold GtoPreflop.getHandStrength
    cases hl : GtoPreflop.HAND_STRENGTH.lookup h with
    | none => simp
    | some v =>
      have := hvals _ (lookup_mem hl)
      simpa using this
  · intro s hs
    unfold GtoPreflop.getHandStrength
    cases hl : GtoPreflop.HAND_STRENGTH.lookup s with
    | none => simp
    | some v =>
      exact absurd (hkeys _ (lookup_mem hl)) hs

/-- Witness for C3 at concrete inputs: "AA" is a canonical class with
strength in [0,100], and the non-class string "XX" gets the floor 30. -/
theorem getHandStrength_total_witness :
    (0 ≤ GtoPreflop.getHandStrength "AA" ∧ GtoPreflop.getHandStrength "AA" ≤ 100)
    ∧ GtoPreflop.getHandStrength "XX" = 30 :=
  ⟨getHandStrength_total.1 "AA" (by decide), getHandStrength_total.2.1 "XX" (by decide)⟩

/-- C4: `normalizeRange` is total and idempotent: when the weight sum is
nonzero the result's weights sum to 1 and re-normalizing returns the same
distribution; when the weight sum is exactly zero the range is returned
unchanged. -/
theorem normalizeRange_spec (r : List RangeTracker.WeightedHand) :
    (RangeTracker.totalWeight r ≠ 0 →
      RangeTracker.totalWeight (RangeTracker.normalizeRange r) = 1
      ∧ RangeTracker.normalizeRange (RangeTracker.normalizeRange r)
        = RangeTracker.normalizeRange r)
    ∧ (RangeTracker.totalWeight r = 0 → RangeTracker.normalizeRange r = r) := by
  constructor
  · intro h
    have hsum : RangeTracker.totalWeight (RangeTracker.normalizeRange r) = 1 := by
      rw [RangeTracker.normalizeRange_of_ne r h, RangeTracker.totalWeight_map_scale, div_self h]
    refine ⟨hsum, ?_⟩
    rw [RangeTracker.normalizeRange_of_ne (RangeTracker.normalizeRange r)
      (by rw [hsum]; norm_num), hsum]
    calc (RangeTracker.normalizeRange r).map (fun wh => { wh with weight := wh.weight / 1 })
        = (RangeTracker.normalizeRange r).map (fun wh => wh) := by
          apply List.map_congr_left
          intro wh _
          rw [div_one]
      _ = RangeTracker.normalizeRange r := List.map_id' _
  · intro h
    unfold RangeTracker.normalizeRange
    rw [if_pos h]

/-- Witness for C4 at a concrete one-class range with nonzero weight sum. -/
theorem normalizeRange_spec_witness :
    RangeTracker.totalWeight [⟨"AA", (2 : ℚ)⟩] ≠ 0
    ∧ RangeTracker.totalWeight (RangeTracker.normalizeRange [⟨"AA", (2 : ℚ)⟩]) = 1
    ∧ RangeTracker.normalizeRange (RangeTracker.normalizeRange [⟨"AA", (2 : ℚ)⟩])
      = RangeTracker.normalizeRange [⟨"AA", (2 : ℚ)⟩] := by
  have h : RangeTracker.totalWeight [⟨"AA", (2 : ℚ)⟩] ≠ 0 := by
    norm_num [RangeTracker.totalWeight, List.foldl]
  have h2 := (normalizeRange_spec [⟨"AA", (2 : ℚ)⟩]).1 h
  exact ⟨h, h2.1, h2.2⟩

/-- C2: with equity 80%, pot 10 BB, stack 40 BB on the river, not facing a
bet and null opponent stats, the EV engine bets rather than checks: the
check EV is 0.8 × 10 = 8 BB and some enumerated bet size has strictly
larger EV. -/
theorem postflop_river_value_bet :
    (PostflopEngine.getPostflopEVDecision 80 10 40 "river" false 0 none true true).action = "bet"
    ∧ PostflopEngine.calculateCheckEV 10 (80 / 100) = 8
    ∧ ∃ fr ∈ PostflopEngine.BET_SIZE_FRACTIONS,
        PostflopEngine.calculateCheckEV 10 (80 / 100)
          < PostflopEngine.calculateBetEV 10 (min (10 * fr) 40) (80 / 100)
              (PostflopEngine.estimateFoldEquity none fr "river") := by
  refine ⟨?_, by norm_num [PostflopEngine.calculateCheckEV], ⟨1.5, ?_, ?_⟩⟩
  · norm_num [PostflopEngine.getPostflopEVDecision, PostflopEngine.estimateFoldEquity,
      PostflopEngine.baseFoldFreq, PostflopEngine.calculateCheckEV,
      PostflopEngine.calculateBetEV, PostflopEngine.BET_SIZE_FRACTIONS,
      PostflopEngine.sortByEVDesc, PostflopEngine.insertByEV, min_def, max_def, List.foldl]
  · norm_num [PostflopEngine.BET_SIZE_FRACTIONS]
  · norm_num [PostflopEngine.calculateCheckEV, PostflopEngine.calculateBetEV,
      PostflopEngine.estimateFoldEquity, PostflopEngine.baseFoldFreq, min_def, max_def]

/-- C1: with a deep stack (≥ 25 BB), hero in UTG and no prior action,
pocket Aces ("As","Ah") open-raise to 2.5 BB with confidence ≥ 0.85, and
any two cards forming the class "72o" are folded. -/
theorem preflop_utg_scenario (stack : ℚ) (h25 : 25 ≤ stack) (r1 r2 r3 : ℚ) :
    ((GtoPreflop.getGTOPreflopAction "As" "Ah" "UTG" stack
        (GtoPreflop.analyzePreflopContext [] "hero" "UTG" []) none r1 r2 r3).action = "raise"
      ∧ (GtoPreflop.getGTOPreflopAction "As" "Ah" "UTG" stack
        (GtoPreflop.analyzePreflopContext [] "hero" "UTG" []) none r1 r2 r3).sizingBBs = 2.5
      ∧ 0.85 ≤ (GtoPreflop.getGTOPreflopAction "As" "Ah" "UTG" stack
        (GtoPreflop.analyzePreflopContext [] "hero" "UTG" []) none r1 r2 r3).confidence)
    ∧ (∀ c1 c2 : String, GtoPreflop.normalizeHand c1 c2 = "72o" →
        (GtoPreflop.getGTOPreflopAction c1 c2 "UTG" stack
          (GtoPreflop.analyzePreflopContext [] "hero" "UTG" []) none r1 r2 r3).action = "fold") := by
  have hns : ¬ stack < 25 := not_lt.mpr h25
  have hctx : GtoPreflop.analyzePreflopContext [] "hero" "UTG" []
      = ⟨true, false, false, false, false, 0, "", 0, 1.5, true, 2⟩ := rfl
  have key : ∀ c1 c2 : String,
      GtoPreflop.getGTOPreflopAction c1 c2 "UTG" stack
          (GtoPreflop.analyzePreflopContext [] "hero" "UTG" []) none r1 r2 r3
        = GtoPreflop.getRFIAction (GtoPreflop.normalizeHand c1 c2)
            ((GtoPreflop.getHandStrength (GtoPreflop.normalizeHand c1 c2) : ℤ) : ℚ)
            "UTG" stack (GtoPreflop.analyzePreflopContext [] "hero" "UTG" [])
            (GtoPreflop.getExploitAdjustment none) := by
    intro c1 c2
    simp only [GtoPreflop.getGTOPreflopAction, hctx]
    rw [if_neg hns]
    simp
  have hAA : GtoPreflop.normalizeHand "As" "Ah" = "AA" := rfl
  have hSAA : GtoPreflop.getHandStrength "AA" = 100 := rfl
  have hS72 : GtoPreflop.getHandStrength "72o" = 32 := rfl
  have hex : GtoPreflop.getExploitAdjustment none = ⟨0, 0, 0, false, false⟩ := rfl
  have hth : List.lookup "UTG" GtoPreflop.RFI_THRESHOLDS = some 82 := rfl
  constructor
  · rw [key "As" "Ah", hAA, hSAA, hex, hctx]
    norm_num [GtoPreflop.getRFIAction, GtoPreflop.getMultiwayAdjustment, hth]
    all_goals decide
  · intro c1 c2 hnorm
    rw [key c1 c2, hnorm, hS72, hex, hctx]
    norm_num [GtoPreflop.getRFIAction, GtoPreflop.getMultiwayAdjustment, hth]

/-- Witness for C1 at the concrete stack 30 BB (and oracle values 0). -/
theorem preflop_utg_scenario_witness :
    (GtoPreflop.getGTOPreflopAction "As" "Ah" "UTG" 30
        (GtoPreflop.analyzePreflopContext [] "hero" "UTG" []) none 0 0 0).action = "raise"
    ∧ (GtoPreflop.getGTOPreflopAction "7s" "2h" "UTG" 30
        (GtoPreflop.analyzePreflopContext [] "hero" "UTG" []) none 0 0 0).action = "fold" :=
  ⟨(preflop_utg_scenario 30 (by norm_num) 0 0 0).1.1,
   (preflop_utg_scenario 30 (by norm_num) 0 0 0).2 "7s" "2h" rfl⟩

/-- C9 fails on the code: isolating over one limper (players in pot = 3),
hero in CO with pocket Aces and a 100 BB stack raises, but to
3.5 + 1 = 4.5 BB, not to the claimed 2.5 + 1 = 3.5 BB. -/
theorem rfi_iso_sizing_counterexample :
    (GtoPreflop.getGTOPreflopAction "As" "Ah" "CO" 100
      (GtoPreflop.analyzePreflopContext [⟨"p1", "calls", 1⟩] "hero" "CO" [("p1", "MP")])
      none 0 0 0).action = "raise"
    ∧ (GtoPreflop.getGTOPreflopAction "As" "Ah" "CO" 100
      (GtoPreflop.analyzePreflopContext [⟨"p1", "calls", 1⟩] "hero" "CO" [("p1", "MP")])
      none 0 0 0).sizingBBs = 4.5
    ∧ (GtoPreflop.getGTOPreflopAction "As" "Ah" "CO" 100
      (GtoPreflop.analyzePreflopContext [⟨"p1", "calls", 1⟩] "hero" "CO" [("p1", "MP")])
      none 0 0 0).sizingBBs ≠ 2.5 + 1 := by
  have hidxCO : GtoPreflop.arrayIndexOf GtoPreflop.posOrder "CO" = 7 := rfl
  have hidxNone : GtoPreflop.arrayIndexOf GtoPreflop.posOrder "" = -1 := rfl
  have hctxL : GtoPreflop.analyzePreflopContext [⟨"p1", "calls", 1⟩] "hero" "CO" [("p1", "MP")]
      = ⟨false, false, false, false, true, 0, "", 0, 2.5, true, 3⟩ := by
    norm_num [GtoPreflop.analyzePreflopContext, GtoPreflop.analyzePreflopContextStep,
      List.foldl, hidxCO, hidxNone,
      (show ("p1" : String) ≠ "hero" from by decide),
      (show ("calls" : String) ≠ "raises" from by decide),
      (show ("calls" : String) ≠ "bets" from by decide)]
  have hAA : GtoPreflop.normalizeHand "As" "Ah" = "AA" := rfl
  have hSAA : GtoPreflop.getHandStrength "AA" = 100 := rfl
  have hex : GtoPreflop.getExploitAdjustment none = ⟨0, 0, 0, false, false⟩ := rfl
  have hth : List.lookup "CO" GtoPreflop.RFI_THRESHOLDS = some 68 := rfl
  simp only [hctxL, GtoPreflop.getGTOPreflopAction, hAA, hSAA, hex]
  norm_num [GtoPreflop.getRFIAction, GtoPreflop.getMultiwayAdjustment, hth,
    (show ("CO" : String) ≠ "SB" from by decide)]

/-- C9 amended: a deep-stack first-in/isolation raise opens to 2.5 BB with
no limpers, to 3.5 BB plus 1 BB per limper (players in pot minus two) when
isolating, and to 3.0 BB from the small blind in both cases. -/
theorem rfi_sizing_amended (c1 c2 pos : String) (stack : ℚ) (h25 : 25 ≤ stack)
    (ctx : GtoPreflop.PreflopContext) (stats : Option PlayerStats) (r1 r2 r3 : ℚ)
    (hrfi : ctx.isRFI = true ∨ ctx.facingLimp = true)
    (hraise : (GtoPreflop.getGTOPreflopAction c1 c2 pos stack ctx stats r1 r2 r3).action
      = "raise") :
    (pos = "SB" →
      (GtoPreflop.getGTOPreflopAction c1 c2 pos stack ctx stats r1 r2 r3).sizingBBs = 3.0)
    ∧ (pos ≠ "SB" → ctx.facingLimp = false →
      (GtoPreflop.getGTOPreflopAction c1 c2 pos stack ctx stats r1 r2 r3).sizingBBs = 2.5)
    ∧ (pos ≠ "SB" → ctx.facingLimp = true →
      (GtoPreflop.getGTOPreflopAction c1 c2 pos stack ctx stats r1 r2 r3).sizingBBs
        = 3.5 + ((ctx.playersInPot : ℚ) - 2)) := by
  have hns : ¬ stack < 25 := not_lt.mpr h25
  have hdisp : GtoPreflop.getGTOPreflopAction c1 c2 pos stack ctx stats r1 r2 r3
      = GtoPreflop.getRFIAction (GtoPreflop.normalizeHand c1 c2)
          ((GtoPreflop.getHandStrength (GtoPreflop.normalizeHand c1 c2) : ℤ) : ℚ)
          pos stack ctx (GtoPreflop.getExploitAdjustment stats) := by
    simp only [GtoPreflop.getGTOPreflopAction]
    rw [if_neg hns]
    rcases hrfi with h | h <;> simp [h]
  rw [hdisp] at hraise ⊢
  simp only [GtoPreflop.getRFIAction] at hraise ⊢
  split_ifs at hraise ⊢ <;> simp_all <;> norm_num

/-- Witness for C9's amended claim: CO isolating one limper sizes to
3.5 + 1 = 4.5 BB. -/
theorem rfi_sizing_amended_witness :
    (GtoPreflop.getGTOPreflopAction "As" "Ah" "CO" 100
      ⟨false, false, false, false, true, 0, "", 0, 2.5, true, 3⟩ none 0 0 0).sizingBBs
      = 3.5 + (((3 : ℕ) : ℚ) - 2) := by
  have hraise : (GtoPreflop.getGTOPreflopAction "As" "Ah" "CO" 100
      ⟨false, false, false, false, true, 0, "", 0, 2.5, true, 3⟩ none 0 0 0).action
      = "raise" := by
    have hAA : GtoPreflop.normalizeHand "As" "Ah" = "AA" := rfl
    have hSAA : GtoPreflop.getHandStrength "AA" = 100 := rfl
    have hex : GtoPreflop.getExploitAdjustment none = ⟨0, 0, 0, false, false⟩ := rfl
    have hth : List.lookup "CO" GtoPreflop.RFI_THRESHOLDS = some 68 := rfl
    simp only [GtoPreflop.getGTOPreflopAction, hAA, hSAA, hex]
    norm_num [GtoPreflop.getRFIAction, GtoPreflop.getMultiwayAdjustment, hth]
  exact (rfi_sizing_amended "As" "Ah" "CO" 100 (by norm_num)
    ⟨false, false, false, false, true, 0, "", 0, 2.5, true, 3⟩ none 0 0 0
    (Or.inr rfl) hraise).2.2 (by decide) rfl

theorem getShortStackAction_conf_pos (hand : String) (strength : ℚ) (position : String)
    (stackBBs : ℚ) (ctx : GtoPreflop.PreflopContext) :
    0 < (GtoPreflop.getShortStackAction hand strength position stackBBs ctx).confidence := by
  simp only [GtoPreflop.getShortStackAction]
  split_ifs <;> norm_num

theorem getRFIAction_conf_pos (hand : String) (strength : ℚ) (position : String)
    (stackBBs : ℚ) (ctx : GtoPreflop.PreflopContext) (exploit : GtoPreflop.ExploitAdjustment) :
    0 < (GtoPreflop.getRFIAction hand strength position stackBBs ctx exploit).confidence := by
  simp only [GtoPreflop.getRFIAction]
  split_ifs <;> norm_num

theorem getBBDefenseAction_conf_pos (hand : String) (strength : ℚ)
    (ctx : GtoPreflop.PreflopContext) (exploit : GtoPreflop.ExploitAdjustment) (r : ℚ) :
    0 < (GtoPreflop.getBBDefenseAction hand strength ctx exploit r).confidence := by
  simp only [GtoPreflop.getBBDefenseAction]
  split_ifs <;> norm_num

theorem getFacingOpenAction_conf_pos (hand : String) (strength : ℚ) (position : String)
    (stackBBs : ℚ) (ctx : GtoPreflop.PreflopContext) (exploit : GtoPreflop.ExploitAdjustment)
    (r1 r2 : ℚ) :
    0 < (GtoPreflop.getFacingOpenAction hand strength position stackBBs ctx exploit
      r1 r2).confidence := by
  simp only [GtoPreflop.getFacingOpenAction]
  split_ifs <;> first
    | exact getBBDefenseAction_conf_pos hand strength ctx exploit r2
    | norm_num

theorem getFacing3BetAction_conf_pos (hand : String) (strength : ℚ) (position : String)
    (stackBBs : ℚ) (ctx : GtoPreflop.PreflopContext) (exploit : GtoPreflop.ExploitAdjustment)
    (r : ℚ) :
    0 < (GtoPreflop.getFacing3BetAction hand strength position stackBBs ctx exploit
      r).confidence := by
  simp only [GtoPreflop.getFacing3BetAction]
  split_ifs <;> norm_num

theorem getFacing4BetAction_conf_pos (hand : String) (strength stackBBs : ℚ) :
    0 < (GtoPreflop.getFacing4BetAction hand strength stackBBs).confidence := by
  simp only [GtoPreflop.getFacing4BetAction]
  split_ifs <;> norm_num

/-- C7: the preflop engine returns a decision with strictly positive
confidence whenever the context matches one of the five recognized cases
(short-stack override, RFI/limp, facing open, facing 3-bet, facing 4-bet);
when none matches it returns the explicit unhandled-context fallback with
confidence exactly 0 (empty action, zero sizing). -/
theorem preflop_confidence_signal (c1 c2 pos : String) (stack : ℚ)
    (ctx : GtoPreflop.PreflopContext) (stats : Option PlayerStats) (r1 r2 r3 : ℚ) :
    ((stack < 25 ∨ ctx.isRFI = true ∨ ctx.facingLimp = true ∨ ctx.facingOpen = true
        ∨ ctx.facing3Bet = true ∨ ctx.facing4Bet = true) →
      0 < (GtoPreflop.getGTOPreflopAction c1 c2 pos stack ctx stats r1 r2 r3).confidence)
    ∧ (¬ (stack < 25 ∨ ctx.isRFI = true ∨ ctx.facingLimp = true ∨ ctx.facingOpen = true
        ∨ ctx.facing3Bet = true ∨ ctx.facing4Bet = true) →
      GtoPreflop.getGTOPreflopAction c1 c2 pos stack ctx stats r1 r2 r3 = ⟨"", 0, 0⟩) := by
  constructor
  · intro h
    simp only [GtoPreflop.getGTOPreflopAction]
    split_ifs with h1 h2 h3 h4 h5
    · exact getShortStackAction_conf_pos _ _ _ _ _
    · exact getRFIAction_conf_pos _ _ _ _ _ _
    · exact getFacingOpenAction_conf_pos _ _ _ _ _ _ _ _
    · exact getFacing3BetAction_conf_pos _ _ _ _ _ _ _
    · exact getFacing4BetAction_conf_pos _ _ _
    · rcases h with h | h | h | h | h | h <;> simp_all
  · intro h
    push_neg at h
    obtain ⟨hstack, hrfi, hlimp, hopen, h3bet, h4bet⟩ := h
    have hrfi' : ctx.isRFI = false := by simpa using hrfi
    have hlimp' : ctx.facingLimp = false := by simpa using hlimp
    have hopen' : ctx.facingOpen = false := by simpa using hopen
    have h3bet' : ctx.facing3Bet = false := by simpa using h3bet
    have h4bet' : ctx.facing4Bet = false := by simpa using h4bet
    simp [GtoPreflop.getGTOPreflopAction, hstack, hrfi', hlimp', hopen', h3bet', h4bet']

/-- Witness for C7: a 100 BB stack with every context flag false gets the
zero-confidence fallback, while the RFI flag alone gives positive
confidence. -/
theorem preflop_confidence_signal_witness :
    GtoPreflop.getGTOPreflopAction "As" "Ah" "UTG" 100
      ⟨false, false, false, false, false, 0, "", 0, 1.5, true, 2⟩ none 0 0 0 = ⟨"", 0, 0⟩
    ∧ 0 < (GtoPreflop.getGTOPreflopAction "As" "Ah" "UTG" 100
      ⟨true, false, false, false, false, 0, "", 0, 1.5, true, 2⟩ none 0 0 0).confidence :=
  ⟨(preflop_confidence_signal "As" "Ah" "UTG" 100
      ⟨false, false, false, false, false, 0, "", 0, 1.5, true, 2⟩ none 0 0 0).2
      (by norm_num),
   (preflop_confidence_signal "As" "Ah" "UTG" 100
      ⟨true, false, false, false, false, 0, "", 0, 1.5, true, 2⟩ none 0 0 0).1
      (Or.inr (Or.inl rfl))⟩

theorem baseFoldFreq_bounds (stats : Option PlayerStats) :
    0.25 ≤ PostflopEngine.baseFoldFreq stats ∧ PostflopEngine.baseFoldFreq stats ≤ 0.65 := by
  rcases stats with _ | s
  · norm_num [PostflopEngine.baseFoldFreq]
  · simp only [PostflopEngine.baseFoldFreq]
    split_ifs <;> norm_num

theorem clamp_mono {x y : ℚ} (h : x ≤ y) :
    min (max x (0.05 : ℚ)) 0.85 ≤ min (max y 0.05) 0.85 :=
  min_le_min (max_le_max h le_rfl) le_rfl

theorem streetMult_mono {y c1 c2 : ℚ} (hc1 : 0 < c1) (hc : c1 ≤ c2) :
    min (max (y * c1) (0.05 : ℚ)) 0.85 ≤ min (max (y * c2) 0.05) 0.85 := by
  rcases le_or_lt 0 y with hy | hy
  · apply clamp_mono
    nlinarith
  · rw [max_eq_right (by nlinarith : y * c1 ≤ (0.05 : ℚ)),
      max_eq_right (by nlinarith : y * c2 ≤ (0.05 : ℚ))]

/-- C8: fold-equity estimation is a pure function of opponent archetype,
bet-size-as-pot-fraction and street; its value is always clamped into
[0.05, 0.85]; the archetype base rates are nit 0.65, calling-station 0.25,
TAG 0.50, LAG 0.40, loose-passive 0.30 and default 0.45; and the estimate
is monotone nondecreasing in the bet fraction and from flop to turn to
river. -/
theorem estimateFoldEquity_spec :
    (∀ (stats : Option PlayerStats) (f : ℚ) (street : String),
      0.05 ≤ PostflopEngine.estimateFoldEquity stats f street
      ∧ PostflopEngine.estimateFoldEquity stats f street ≤ 0.85)
    ∧ PostflopEngine.baseFoldFreq none = 0.45
    ∧ (∀ s : PlayerStats, ¬ s.getTotalHands ≥ 8 →
        PostflopEngine.baseFoldFreq (some s) = 0.45)
    ∧ (∀ s : PlayerStats, s.getTotalHands ≥ 8 →
        s.computeVPIPStat < 18 →
        PostflopEngine.baseFoldFreq (some s) = 0.65)
    ∧ (∀ s : PlayerStats, s.getTotalHands ≥ 8 →
        ¬ s.computeVPIPStat < 18 →
        (s.computeVPIPStat > 35 ∧ s.computePFRStat < 12) →
        PostflopEngine.baseFoldFreq (some s) = 0.25)
    ∧ (∀ s : PlayerStats, s.getTotalHands ≥ 8 →
        ¬ s.computeVPIPStat < 18 →
        ¬ (s.computeVPIPStat > 35 ∧ s.computePFRStat < 12) →
        (s.computeVPIPStat ≥ 18 ∧ s.computeVPIPStat ≤ 25
          ∧ s.computePFRStat ≥ 15 ∧ s.computePFRStat ≤ 22) →
        PostflopEngine.baseFoldFreq (some s) = 0.50)
    ∧ (∀ s : PlayerStats, s.getTotalHands ≥ 8 →
        ¬ s.computeVPIPStat < 18 →
        ¬ (s.computeVPIPStat > 35 ∧ s.computePFRStat < 12) →
        ¬ (s.computeVPIPStat ≥ 18 ∧ s.computeVPIPStat ≤ 25
          ∧ s.computePFRStat ≥ 15 ∧ s.computePFRStat ≤ 22) →
        (s.computeVPIPStat > 30 ∧ s.computePFRStat > 22) →
        PostflopEngine.baseFoldFreq (some s) = 0.40)
    ∧ (∀ s : PlayerStats, s.getTotalHands ≥ 8 →
        ¬ s.computeVPIPStat < 18 →
        ¬ (s.computeVPIPStat > 35 ∧ s.computePFRStat < 12) →
        ¬ (s.computeVPIPStat ≥ 18 ∧ s.computeVPIPStat ≤ 25
          ∧ s.computePFRStat ≥ 15 ∧ s.computePFRStat ≤ 22) →
        ¬ (s.computeVPIPStat > 30 ∧ s.computePFRStat > 22) →
        (s.computeVPIPStat > 30 ∧ s.computeAggressionFactor < 1.5) →
        PostflopEngine.baseFoldFreq (some s) = 0.30)
    ∧ (∀ s : PlayerStats, s.getTotalHands ≥ 8 →
        ¬ s.computeVPIPStat < 18 →
        ¬ (s.computeVPIPStat > 35 ∧ s.computePFRStat < 12) →
        ¬ (s.computeVPIPStat ≥ 18 ∧ s.computeVPIPStat ≤ 25
          ∧ s.computePFRStat ≥ 15 ∧ s.computePFRStat ≤ 22) →
        ¬ (s.computeVPIPStat > 30 ∧ s.computePFRStat > 22) →
        ¬ (s.computeVPIPStat > 30 ∧ s.computeAggressionFactor < 1.5) →
        PostflopEngine.baseFoldFreq (some s) = 0.45)
    ∧ (∀ (stats : Option PlayerStats) (street : String) (f f' : ℚ), f ≤ f' →
        PostflopEngine.estimateFoldEquity stats f street
          ≤ PostflopEngine.estimateFoldEquity stats f' street)
    ∧ (∀ (stats : Option PlayerStats) (f : ℚ),
        PostflopEngine.estimateFoldEquity stats f "flop"
          ≤ PostflopEngine.estimateFoldEquity stats f "turn"
        ∧ PostflopEngine.estimateFoldEquity stats f "turn"
          ≤ PostflopEngine.estimateFoldEquity stats f "river") := by
  refine ⟨?_, by norm_num [PostflopEngine.baseFoldFreq], ?_, ?_, ?_, ?_, ?_, ?_, ?_, ?_, ?_⟩
  · intro stats f street
    simp only [PostflopEngine.estimateFoldEquity]
    exact ⟨le_min (le_max_right _ _) (by norm_num), min_le_right _ _⟩
  · intro s h8
    simp [PostflopEngine.baseFoldFreq, h8]
  · intro s h8 h1
    simp [PostflopEngine.baseFoldFreq, h8, h1]
  · intro s h8 h1 h2
    simp [PostflopEngine.baseFoldFreq, h8, h1, h2]
  · intro s h8 h1 h2 h3
    simp [PostflopEngine.baseFoldFreq, h8, h1, h2, h3]
  · intro s h8 h1 h2 h3 h4
    simp [PostflopEngine.baseFoldFreq, h8, h1, h2, h3, h4]
  · intro s h8 h1 h2 h3 h4 h5
    have hpfr : ¬ s.computePFRStat > 22 := fun hp => h4 ⟨h5.1, hp⟩
    simp [PostflopEngine.baseFoldFreq, h8, h1, h2, h3, hpfr, h5]
  · intro s h8 h1 h2 h3 h4 h5
    simp [PostflopEngine.baseFoldFreq, h8, h1, h2, h3, h4, h5]
  · intro stats street f f' hf
    have hb := baseFoldFreq_bounds stats
    simp only [PostflopEngine.estimateFoldEquity]
    apply clamp_mono
    split_ifs <;> nlinarith [mul_nonneg (sub_nonneg.mpr hf) (le_trans (by norm_num) hb.1)]
  · intro stats f
    have hflop : PostflopEngine.estimateFoldEquity stats f "flop"
        = min (max (PostflopEngine.baseFoldFreq stats * (0.8 + f * 0.4) * 1.0) 0.05) 0.85 := rfl
    have hturn : PostflopEngine.estimateFoldEquity stats f "turn"
        = min (max (PostflopEngine.baseFoldFreq stats * (0.8 + f * 0.4) * 1.05) 0.05) 0.85 := rfl
    have hriver : PostflopEngine.estimateFoldEquity stats f "river"
        = min (max (PostflopEngine.baseFoldFreq stats * (0.8 + f * 0.4) * 1.1) 0.05) 0.85 := rfl
    rw [hflop, hturn, hriver]
    exact ⟨streetMult_mono (by norm_num) (by norm_num),
      streetMult_mono (by norm_num) (by norm_num)⟩

theorem map_hand_eq {f : RangeTracker.WeightedHand → RangeTracker.WeightedHand}
    (hf : ∀ wh, (f wh).hand = wh.hand) (r : List RangeTracker.WeightedHand) :
    (r.map f).map (fun wh => wh.hand) = r.map (fun wh => wh.hand) := by
  rw [List.map_map]
  exact List.map_congr_left (fun wh _ => hf wh)

theorem map_weight_nonneg {f : RangeTracker.WeightedHand → RangeTracker.WeightedHand}
    (hf : ∀ wh : RangeTracker.WeightedHand, 0 ≤ wh.weight → 0 ≤ (f wh).weight)
    (r : List RangeTracker.WeightedHand) (h : ∀ wh ∈ r, 0 ≤ wh.weight) :
    ∀ wh ∈ r.map f, 0 ≤ wh.weight := by
  intro wh hm
  rcases List.mem_map.mp hm with ⟨x, hx, rfl⟩
  exact hf x (h x hx)

theorem totalWeight_nonneg (r : List RangeTracker.WeightedHand)
    (h : ∀ wh ∈ r, 0 ≤ wh.weight) : 0 ≤ RangeTracker.totalWeight r := by
  induction r with
  | nil => simp [RangeTracker.totalWeight]
  | cons x t ih =>
    rw [RangeTracker.totalWeight_cons]
    have hx := h x (List.mem_cons_self x t)
    have ht := ih (fun wh hw => h wh (List.mem_cons_of_mem x hw))
    linarith

/-- Witness for C8: default stats on the river with a half-pot bet are in
[0.05, 0.85], and a tight opponent (20 hands, VPIP 10%) has base rate 0.65. -/
theorem estimateFoldEquity_spec_witness :
    (0.05 ≤ PostflopEngine.estimateFoldEquity none 0.5 "river"
      ∧ PostflopEngine.estimateFoldEquity none 0.5 "river" ≤ 0.85)
    ∧ PostflopEngine.baseFoldFreq (some ⟨20, 0, 2, 0, 0, 0, 0, 0⟩) = 0.65
    ∧ PostflopEngine.estimateFoldEquity none 0.5 "flop"
      ≤ PostflopEngine.estimateFoldEquity none 0.5 "turn" :=
  ⟨estimateFoldEquity_spec.1 none 0.5 "river",
   estimateFoldEquity_spec.2.2.2.1 ⟨20, 0, 2, 0, 0, 0, 0, 0⟩
     (by norm_num [PlayerStats.getTotalHands])
     (by norm_num [PlayerStats.computeVPIPStat]),
   (estimateFoldEquity_spec.2.2.2.2.2.2.2.2.2.2 none 0.5).1⟩

/-- C10: every range-producing operation (starting/full range creation,
each narrowing transform, normalization) preserves the hand classes and
their order — the full 169-class list for a freshly created range — and,
given a nonnegative bet-size-as-pot-fraction, maps nonnegative weights to
nonnegative weights. -/
theorem range_ops_invariants :
    (∀ (pos : String) (stats : Option PlayerStats),
      (RangeTracker.createStartingRange pos stats).map (fun wh => wh.hand)
        = RangeTracker.ALL_HANDS)
    ∧ RangeTracker.createFullRange.map (fun wh => wh.hand) = RangeTracker.ALL_HANDS
    ∧ (∀ (pos : String) (stats : Option PlayerStats),
        ∀ wh ∈ RangeTracker.createStartingRange pos stats, 0 ≤ wh.weight)
    ∧ (∀ wh ∈ RangeTracker.createFullRange, 0 ≤ wh.weight)
    ∧ (∀ (r : List RangeTracker.WeightedHand) (pos : String) (stats : Option PlayerStats),
        (RangeTracker.narrowByOpenRaise r pos stats).map (fun wh => wh.hand)
          = r.map (fun wh => wh.hand))
    ∧ (∀ (r : List RangeTracker.WeightedHand) (pos : String) (stats : Option PlayerStats),
        (∀ wh ∈ r, 0 ≤ wh.weight) →
        ∀ wh ∈ RangeTracker.narrowByOpenRaise r pos stats, 0 ≤ wh.weight)
    ∧ (∀ (r : List RangeTracker.WeightedHand) (pos : String) (stats : Option PlayerStats),
        (RangeTracker.narrowBy3Bet r pos stats).map (fun wh => wh.hand)
          = r.map (fun wh => wh.hand))
    ∧ (∀ (r : List RangeTracker.WeightedHand) (pos : String) (stats : Option PlayerStats),
        (∀ wh ∈ r, 0 ≤ wh.weight) →
        ∀ wh ∈ RangeTracker.narrowBy3Bet r pos stats, 0 ≤ wh.weight)
    ∧ (∀ (r : List RangeTracker.WeightedHand) (pos : String) (ip : Bool)
        (stats : Option PlayerStats),
        (RangeTracker.narrowByPreflopCall r pos ip stats).map (fun wh => wh.hand)
          = r.map (fun wh => wh.hand))
    ∧ (∀ (r : List RangeTracker.WeightedHand) (pos : String) (ip : Bool)
        (stats : Option PlayerStats),
        (∀ wh ∈ r, 0 ≤ wh.weight) →
        ∀ wh ∈ RangeTracker.narrowByPreflopCall r pos ip stats, 0 ≤ wh.weight)
    ∧ (∀ (r : List RangeTracker.WeightedHand) (fr : ℚ),
        (RangeTracker.narrowByPostflopBet r fr).map (fun wh => wh.hand)
          = r.map (fun wh => wh.hand))
    ∧ (∀ (r : List RangeTracker.WeightedHand) (fr : ℚ), 0 ≤ fr →
        (∀ wh ∈ r, 0 ≤ wh.weight) →
        ∀ wh ∈ RangeTracker.narrowByPostflopBet r fr, 0 ≤ wh.weight)
    ∧ (∀ r : List RangeTracker.WeightedHand,
        (RangeTracker.narrowByPostflopCheck r).map (fun wh => wh.hand)
          = r.map (fun wh => wh.hand))
    ∧ (∀ r : List RangeTracker.WeightedHand, (∀ wh ∈ r, 0 ≤ wh.weight) →
        ∀ wh ∈ RangeTracker.narrowByPostflopCheck r, 0 ≤ wh.weight)
    ∧ (∀ r : List RangeTracker.WeightedHand,
        (RangeTracker.narrowByPostflopCall r).map (fun wh => wh.hand)
          = r.map (fun wh => wh.hand))
    ∧ (∀ r : List RangeTracker.WeightedHand, (∀ wh ∈ r, 0 ≤ wh.weight) →
        ∀ wh ∈ RangeTracker.narrowByPostflopCall r, 0 ≤ wh.weight)
    ∧ (∀ r : List RangeTracker.WeightedHand,
        (RangeTracker.normalizeRange r).map (fun wh => wh.hand)
          = r.map (fun wh => wh.hand))
    ∧ (∀ r : List RangeTracker.WeightedHand, (∀ wh ∈ r, 0 ≤ wh.weight) →
        ∀ wh ∈ RangeTracker.normalizeRange r, 0 ≤ wh.weight) := by
  refine ⟨?_, ?_, ?_, ?_, ?_, ?_, ?_, ?_, ?_, ?_, ?_, ?_, ?_, ?_, ?_, ?_, ?_, ?_⟩
  · intro pos stats
    simp only [RangeTracker.createStartingRange, List.map_map]
    exact List.map_id' _
  · simp only [RangeTracker.createFullRange, List.map_map]
    exact List.map_id' _
  · intro pos stats wh hm
    simp only [RangeTracker.createStartingRange] at hm
    rcases List.mem_map.mp hm with ⟨x, _, rfl⟩
    dsimp only
    split_ifs <;> norm_num
  · intro wh hm
    rcases List.mem_map.mp hm with ⟨x, _, rfl⟩
    norm_num
  · intro r pos stats
    simp only [RangeTracker.narrowByOpenRaise]
    refine map_hand_eq (fun wh => ?_) r
    dsimp only
    split_ifs <;> rfl
  · intro r pos stats h
    simp only [RangeTracker.narrowByOpenRaise]
    refine map_weight_nonneg (fun wh hw => ?_) r h
    dsimp only
    split_ifs <;> [exact mul_nonneg hw (by norm_num); exact hw]
  · intro r pos stats
    simp only [RangeTracker.narrowBy3Bet]
    refine map_hand_eq (fun wh => ?_) r
    dsimp only
    split_ifs <;> rfl
  · intro r pos stats h
    simp only [RangeTracker.narrowBy3Bet]
    refine map_weight_nonneg (fun wh hw => ?_) r h
    dsimp only
    split_ifs <;> first
      | exact hw
      | exact mul_nonneg hw (by norm_num)
  · intro r pos ip stats
    simp only [RangeTracker.narrowByPreflopCall]
    refine map_hand_eq (fun wh => ?_) r
    dsimp only
    split_ifs <;> rfl
  · intro r pos ip stats h
    simp only [RangeTracker.narrowByPreflopCall]
    refine map_weight_nonneg (fun wh hw => ?_) r h
    dsimp only
    split_ifs <;> first
      | exact hw
      | exact mul_nonneg hw (by norm_num)
  · intro r fr
    simp only [RangeTracker.narrowByPostflopBet]
    refine map_hand_eq (fun wh => ?_) r
    dsimp only
    split_ifs <;> rfl
  · intro r fr hfr h
    have hp0 : 0 ≤ min (fr / 0.75) 1.5 := le_min (by positivity) (by norm_num)
    have hp1 : min (fr / 0.75) 1.5 ≤ 1.5 := min_le_right _ _
    simp only [RangeTracker.narrowByPostflopBet]
    refine map_weight_nonneg (fun wh hw => ?_) r h
    dsimp only
    split_ifs
    · exact mul_nonneg hw (by nlinarith)
    · exact mul_nonneg hw (by nlinarith)
    · exact mul_nonneg hw (by nlinarith)
    · exact mul_nonneg hw (by nlinarith)
  · intro r
    simp only [RangeTracker.narrowByPostflopCheck]
    refine map_hand_eq (fun wh => ?_) r
    dsimp only
    split_ifs <;> rfl
  · intro r h
    simp only [RangeTracker.narrowByPostflopCheck]
    refine map_weight_nonneg (fun wh hw => ?_) r h
    dsimp only
    split_ifs <;> exact mul_nonneg hw (by norm_num)
  · intro r
    simp only [RangeTracker.narrowByPostflopCall]
    refine map_hand_eq (fun wh => ?_) r
    dsimp only
    split_ifs <;> rfl
  · intro r h
    simp only [RangeTracker.narrowByPostflopCall]
    refine map_weight_nonneg (fun wh hw => ?_) r h
    dsimp only
    split_ifs <;> first
      | exact hw
      | exact mul_nonneg hw (by norm_num)
  · intro r
    unfold RangeTracker.normalizeRange
    split_ifs with h0
    · rfl
    · exact @map_hand_eq
        (fun wh => { wh with weight := wh.weight / RangeTracker.totalWeight r })
        (fun wh => rfl) r
  · intro r h
    unfold RangeTracker.normalizeRange
    split_ifs with h0
    · exact h
    · refine map_weight_nonneg (fun wh hw => ?_) r h
      exact div_nonneg hw (totalWeight_nonneg r h)

/-- Witness for C10: narrowing the full range by a half-pot postflop bet
keeps the 169 hand classes in order, and the resulting head element (the
narrowed "AA" entry) has nonnegative weight. -/
theorem range_ops_invariants_witness :
    (RangeTracker.narrowByPostflopBet RangeTracker.createFullRange (1 / 2)).map
      (fun wh => wh.hand) = RangeTracker.ALL_HANDS
    ∧ 0 ≤ ((RangeTracker.narrowByPostflopBet RangeTracker.createFullRange
        (1 / 2)).headD ⟨"", 0⟩).weight := by
  have hhand : (RangeTracker.narrowByPostflopBet RangeTracker.createFullRange (1 / 2)).map
      (fun wh => wh.hand) = RangeTracker.ALL_HANDS := by
    rw [range_ops_invariants.2.2.2.2.2.2.2.2.2.2.1 RangeTracker.createFullRange (1 / 2)]
    exact range_ops_invariants.2.1
  have hnn := range_ops_invariants.2.2.2.2.2.2.2.2.2.2.2.1
    RangeTracker.createFullRange (1 / 2) (by norm_num) range_ops_invariants.2.2.2.1
  refine ⟨hhand, ?_⟩
  have hne : RangeTracker.narrowByPostflopBet RangeTracker.createFullRange (1 / 2) ≠ [] := by
    intro hnil
    rw [hnil] at hhand
    exact absurd hhand.symm (by decide)
  rcases hl : RangeTracker.narrowByPostflopBet RangeTracker.createFullRange (1 / 2) with
    _ | ⟨a, t⟩
  · exact absurd hl hne
  · simp only [List.headD]
    exact hnn a (by rw [hl]; exact List.mem_cons_self a t)

theorem simLoop_counts_le (rank : List String → ℤ) (randoms : ℕ → ℕ → ℚ)
    (heroNorm boardNorm : List String) (bN nOpp : ℕ) :
    ∀ (k s : ℕ) (deck : List String),
      (EquityCalculator.simLoop rank randoms heroNorm boardNorm bN nOpp k s deck).1
        + (EquityCalculator.simLoop rank randoms heroNorm boardNorm bN nOpp k s deck).2
        ≤ k := by
  intro k
  induction k with
  | zero =>
    intro s deck
    simp [EquityCalculator.simLoop]
  | succ n ih =>
    intro s deck
    have h := ih (s + 1) (EquityCalculator.shuffle (randoms s) deck)
    simp only [EquityCalculator.simLoop]
    split_ifs <;> simp <;> omega

/-- C5: when the residual deck (52 cards minus hero and board) holds fewer
cards than the board completion plus two per opponent need, the equity
estimate is exactly the neutral default 50 (no simulation runs); otherwise
the estimate equals (wins + 0.5·ties)/trials × 100 for the accumulated
win/tie counts and lies in [0, 100]. -/
theorem calculateEquity_spec (rank : List String → ℤ) (randoms : ℕ → ℕ → ℚ)
    (heroCards boardCards : List String) (nOpp nSim : ℕ) :
    ((((EquityCalculator.remainingDeckOf heroCards boardCards).length : ℤ)
        < 5 - ((boardCards.map EquityCalculator.normalizeCard).length : ℤ) + (nOpp : ℤ) * 2) →
      EquityCalculator.calculateEquity rank randoms heroCards boardCards nOpp nSim = 50)
    ∧ (¬ (((EquityCalculator.remainingDeckOf heroCards boardCards).length : ℤ)
        < 5 - ((boardCards.map EquityCalculator.normalizeCard).length : ℤ) + (nOpp : ℤ) * 2) →
      ∃ w t : ℕ,
        EquityCalculator.simLoop rank randoms (heroCards.map EquityCalculator.normalizeCard)
          (boardCards.map EquityCalculator.normalizeCard)
          ((5 - ((boardCards.map EquityCalculator.normalizeCard).length : ℤ)).toNat)
          nOpp nSim 0 (EquityCalculator.remainingDeckOf heroCards boardCards) = (w, t)
        ∧ w + t ≤ nSim
        ∧ EquityCalculator.calculateEquity rank randoms heroCards boardCards nOpp nSim
            = (((w : ℚ) + (t : ℚ) * 0.5) / (nSim : ℚ)) * 100
        ∧ 0 ≤ EquityCalculator.calculateEquity rank randoms heroCards boardCards nOpp nSim
        ∧ EquityCalculator.calculateEquity rank randoms heroCards boardCards nOpp nSim
            ≤ 100) := by
  constructor
  · intro h
    simp only [EquityCalculator.calculateEquity]
    rw [if_pos h]
  · intro h
    have hle := simLoop_counts_le rank randoms
      (heroCards.map EquityCalculator.normalizeCard)
      (boardCards.map EquityCalculator.normalizeCard)
      ((5 - ((boardCards.map EquityCalculator.normalizeCard).length : ℤ)).toNat) nOpp
      nSim 0 (EquityCalculator.remainingDeckOf heroCards boardCards)
    have heq : EquityCalculator.calculateEquity rank randoms heroCards boardCards nOpp nSim
        = ((((EquityCalculator.simLoop rank randoms
              (heroCards.map EquityCalculator.normalizeCard)
              (boardCards.map EquityCalculator.normalizeCard)
              ((5 - ((boardCards.map EquityCalculator.normalizeCard).length : ℤ)).toNat)
              nOpp nSim 0 (EquityCalculator.remainingDeckOf heroCards boardCards)).1 : ℚ)
            + ((EquityCalculator.simLoop rank randoms
              (heroCards.map EquityCalculator.normalizeCard)
              (boardCards.map EquityCalculator.normalizeCard)
              ((5 - ((boardCards.map EquityCalculator.normalizeCard).length : ℤ)).toNat)
              nOpp nSim 0 (EquityCalculator.remainingDeckOf heroCards boardCards)).2 : ℚ)
              * 0.5) / (nSim : ℚ)) * 100 := by
      simp only [EquityCalculator.calculateEquity]
      rw [if_neg h]
    refine ⟨_, _, rfl, hle, heq, ?_, ?_⟩
    · rw [heq]
      positivity
    · rw [heq]
      rcases Nat.eq_zero_or_pos nSim with h0 | hpos
      · have h1 : (EquityCalculator.simLoop rank randoms
            (heroCards.map EquityCalculator.normalizeCard)
            (boardCards.map EquityCalculator.normalizeCard)
            ((5 - ((boardCards.map EquityCalculator.normalizeCard).length : ℤ)).toNat)
            nOpp nSim 0 (EquityCalculator.remainingDeckOf heroCards boardCards)).1 = 0 := by
          omega
        have h2 : (EquityCalculator.simLoop rank randoms
            (heroCards.map EquityCalculator.normalizeCard)
            (boardCards.map EquityCalculator.normalizeCard)
            ((5 - ((boardCards.map EquityCalculator.normalizeCard).length : ℤ)).toNat)
            nOpp nSim 0 (EquityCalculator.remainingDeckOf heroCards boardCards)).2 = 0 := by
          omega
        rw [h1, h2, h0]
        norm_num
      · have hn : (0 : ℚ) < (nSim : ℚ) := by exact_mod_cast hpos
        have hcast : ((EquityCalculator.simLoop rank randoms
              (heroCards.map EquityCalculator.normalizeCard)
              (boardCards.map EquityCalculator.normalizeCard)
              ((5 - ((boardCards.map EquityCalculator.normalizeCard).length : ℤ)).toNat)
              nOpp nSim 0 (EquityCalculator.remainingDeckOf heroCards boardCards)).1 : ℚ)
            + ((EquityCalculator.simLoop rank randoms
              (heroCards.map EquityCalculator.normalizeCard)
              (boardCards.map EquityCalculator.normalizeCard)
              ((5 - ((boardCards.map EquityCalculator.normalizeCard).length : ℤ)).toNat)
              nOpp nSim 0 (EquityCalculator.remainingDeckOf heroCards boardCards)).2 : ℚ)
              * 0.5 ≤ (nSim : ℚ) := by
          have := hle
          have hc : ((EquityCalculator.simLoop rank randoms
                (heroCards.map EquityCalculator.normalizeCard)
                (boardCards.map EquityCalculator.normalizeCard)
                ((5 - ((boardCards.map EquityCalculator.normalizeCard).length : ℤ)).toNat)
                nOpp nSim 0 (EquityCalculator.remainingDeckOf heroCards boardCards)).1 : ℚ)
              + ((EquityCalculator.simLoop rank randoms
                (heroCards.map EquityCalculator.normalizeCard)
                (boardCards.map EquityCalculator.normalizeCard)
                ((5 - ((boardCards.map EquityCalculator.normalizeCard).length : ℤ)).toNat)
                nOpp nSim 0 (EquityCalculator.remainingDeckOf heroCards boardCards)).2 : ℚ)
              ≤ (nSim : ℚ) := by
            exact_mod_cast this
          nlinarith [Nat.cast_nonneg (α := ℚ) (EquityCalculator.simLoop rank randoms
            (heroCards.map EquityCalculator.normalizeCard)
            (boardCards.map EquityCalculator.normalizeCard)
            ((5 - ((boardCards.map EquityCalculator.normalizeCard).length : ℤ)).toNat)
            nOpp nSim 0 (EquityCalculator.remainingDeckOf heroCards boardCards)).2]
        have hdiv := (div_le_one hn).mpr hcast
        nlinarith [hdiv]

/-- Witness for C5: hero "As","Ah", empty board and 30 opponents need 65
cards from a 50-card residual deck, so the estimate is the neutral 50. -/
theorem calculateEquity_spec_witness :
    EquityCalculator.calculateEquity (fun _ => 0) (fun _ _ => 0) ["As", "Ah"] [] 30 5 = 50 :=
  (calculateEquity_spec (fun _ => 0) (fun _ _ => 0) ["As", "Ah"] [] 30 5).1 (by decide)

end PokernowBot
